import Mathlib

/-!
Verification of the radicalbit-ai-monitoring model-quality DTO dispatch
(src/api/app/models/metrics/model_quality_dto.py) and of the descriptive
statistics / model quality / drift properties recorded by the regression
test suite (src/spark/tests/regression_current_test.py).

Python dicts are modelled as association lists of JSON-like values, pydantic
model construction as explicit parsers, and floats as rationals (reals for
the regression metric bundle, whose rmse is a square root).
-/

/-- A JSON-like value: the payload of the untyped mappings fed to
`ModelQualityDTO.from_dict`. Floats are modelled as rationals; pydantic's
lax string-to-number coercion is not modelled. -/
inductive Value where
  | null
  | bool (b : Bool)
  | int (n : Int)
  | float (q : Rat)
  | str (s : String)
  | list (vs : List Value)
  | dict (fields : List (String × Value))

/-- A Python dict, as handed to `ModelQualityDTO.from_dict`. -/
abbrev Dict := List (String × Value)

/-- Field lookup as pydantic performs it under `populate_by_name=True` with a
camel-case `alias_generator`: the camelCase alias is tried first, then the
declared field name. -/
def lookupField (d : Dict) (name aliasName : String) : Option Value :=
  match d.lookup aliasName with
  | some v => some v
  | none => d.lookup name

/-- Numeric coercion to float: pydantic accepts ints and floats for a float
field. -/
def Value.asFloat : Value → Option Rat
  | .float q => some q
  | .int n => some (n : Rat)
  | _ => none

def Value.asInt : Value → Option Int
  | .int n => some n
  | _ => none

def Value.asStr : Value → Option String
  | .str s => some s
  | _ => none

/-- Parse an `Optional[float] = None` pydantic field: absent or null yields
`none`, a present value must coerce to a float. -/
def optFloatField (d : Dict) (name aliasName : String) : Except String (Option Rat) :=
  match lookupField d name aliasName with
  | none => .ok none
  | some .null => .ok none
  | some v =>
    match v.asFloat with
    | some q => .ok (some q)
    | none => .error ("invalid float field " ++ name)

/-- Parse a required `int` pydantic field: absent fails with a missing-field
error. -/
def reqIntField (d : Dict) (name aliasName : String) : Except String Int :=
  match lookupField d name aliasName with
  | none => .error ("missing required field " ++ name)
  | some v =>
    match v.asInt with
    | some n => .ok n
    | none => .error ("invalid int field " ++ name)

/-- Parse a required `str` pydantic field. -/
def reqStrField (d : Dict) (name aliasName : String) : Except String String :=
  match lookupField d name aliasName with
  | none => .error ("missing required field " ++ name)
  | some v =>
    match v.asStr with
    | some s => .ok s
    | none => .error ("invalid str field " ++ name)

/-- Mirrors `MetricsBase`: fourteen optional float metrics, all defaulting to
`None`. -/
structure MetricsBase where
  f1 : Option Rat := none
  accuracy : Option Rat := none
  «precision» : Option Rat := none
  «recall» : Option Rat := none
  f_measure : Option Rat := none
  weighted_precision : Option Rat := none
  weighted_recall : Option Rat := none
  weighted_f_measure : Option Rat := none
  weighted_true_positive_rate : Option Rat := none
  weighted_false_positive_rate : Option Rat := none
  true_positive_rate : Option Rat := none
  false_positive_rate : Option Rat := none
  area_under_roc : Option Rat := none
  area_under_pr : Option Rat := none

/-- Pydantic validation of a `MetricsBase` payload. Pydantic collects the
errors of all fields, so the order in which fields are checked does not
affect whether validation succeeds. -/
def parseMetricsBase (d : Dict) : Except String MetricsBase := do
  let f1 ← optFloatField d "f1" "f1"
  let accuracy ← optFloatField d "accuracy" "accuracy"
  let «precision» ← optFloatField d "precision" "precision"
  let «recall» ← optFloatField d "recall" "recall"
  let f_measure ← optFloatField d "f_measure" "fMeasure"
  let weighted_precision ← optFloatField d "weighted_precision" "weightedPrecision"
  let weighted_recall ← optFloatField d "weighted_recall" "weightedRecall"
  let weighted_f_measure ← optFloatField d "weighted_f_measure" "weightedFMeasure"
  let weighted_true_positive_rate ←
    optFloatField d "weighted_true_positive_rate" "weightedTruePositiveRate"
  let weighted_false_positive_rate ←
    optFloatField d "weighted_false_positive_rate" "weightedFalsePositiveRate"
  let true_positive_rate ← optFloatField d "true_positive_rate" "truePositiveRate"
  let false_positive_rate ← optFloatField d "false_positive_rate" "falsePositiveRate"
  let area_under_roc ← optFloatField d "area_under_roc" "areaUnderRoc"
  let area_under_pr ← optFloatField d "area_under_pr" "areaUnderPr"
  return {
    f1 := f1, accuracy := accuracy, «precision» := «precision», «recall» := «recall»,
    f_measure := f_measure, weighted_precision := weighted_precision,
    weighted_recall := weighted_recall, weighted_f_measure := weighted_f_measure,
    weighted_true_positive_rate := weighted_true_positive_rate,
    weighted_false_positive_rate := weighted_false_positive_rate,
    true_positive_rate := true_positive_rate,
    false_positive_rate := false_positive_rate,
    area_under_roc := area_under_roc, area_under_pr := area_under_pr }

/-- Mirrors `BinaryClassificationModelQuality`: `MetricsBase` plus four
required confusion counts. -/
structure BinaryClassificationModelQuality extends MetricsBase where
  true_positive_count : Int
  false_positive_count : Int
  true_negative_count : Int
  false_negative_count : Int

/-- Pydantic validation of a `BinaryClassificationModelQuality` payload. The
required confusion counts are checked first; since pydantic collects all
field errors, this ordering does not change the ok/error outcome. Keys not
in the schema are ignored (pydantic's default `extra` behaviour). -/
def parseBinaryClassificationModelQuality (d : Dict) :
    Except String BinaryClassificationModelQuality := do
  let tp ← reqIntField d "true_positive_count" "truePositiveCount"
  let fp ← reqIntField d "false_positive_count" "falsePositiveCount"
  let tn ← reqIntField d "true_negative_count" "trueNegativeCount"
  let fneg ← reqIntField d "false_negative_count" "falseNegativeCount"
  let base ← parseMetricsBase d
  return { toMetricsBase := base, true_positive_count := tp,
           false_positive_count := fp, true_negative_count := tn,
           false_negative_count := fneg }

/-- Mirrors `Distribution`: a timestamped optional value. -/
structure Distribution where
  timestamp : String
  value : Option Rat := none

def parseDistribution (v : Value) : Except String Distribution :=
  match v with
  | .dict d => do
    let ts ← reqStrField d "timestamp" "timestamp"
    let val ← optFloatField d "value" "value"
    return { timestamp := ts, value := val }
  | _ => .error "invalid Distribution payload"

def parseDistributionList (v : Value) : Except String (List Distribution) :=
  match v with
  | .list vs => vs.mapM parseDistribution
  | _ => .error "invalid Distribution list payload"

/-- Parse a required `List[Distribution]` pydantic field. -/
def reqDistListField (d : Dict) (name aliasName : String) :
    Except String (List Distribution) :=
  match lookupField d name aliasName with
  | none => .error ("missing required field " ++ name)
  | some v => parseDistributionList v

/-- Parse an `Optional[List[Distribution]] = None` pydantic field. -/
def optDistListField (d : Dict) (name aliasName : String) :
    Except String (Option (List Distribution)) :=
  match lookupField d name aliasName with
  | none => .ok none
  | some .null => .ok none
  | some v => (parseDistributionList v).map some

/-- Mirrors `GroupedMetricsBase`: per-metric distribution series; five of the
fields are required, the rest default to `None`. -/
structure GroupedMetricsBase where
  f1 : Option (List Distribution) := none
  accuracy : Option (List Distribution) := none
  «precision» : List Distribution
  «recall» : List Distribution
  f_measure : List Distribution
  weighted_precision : Option (List Distribution) := none
  weighted_recall : Option (List Distribution) := none
  weighted_f_measure : Option (List Distribution) := none
  weighted_true_positive_rate : Option (List Distribution) := none
  weighted_false_positive_rate : Option (List Distribution) := none
  true_positive_rate : List Distribution
  false_positive_rate : List Distribution
  area_under_roc : Option (List Distribution) := none
  area_under_pr : Option (List Distribution) := none

def parseGroupedMetricsBase (d : Dict) : Except String GroupedMetricsBase := do
  let «precision» ← reqDistListField d "precision" "precision"
  let «recall» ← reqDistListField d "recall" "recall"
  let f_measure ← reqDistListField d "f_measure" "fMeasure"
  let true_positive_rate ← reqDistListField d "true_positive_rate" "truePositiveRate"
  let false_positive_rate ← reqDistListField d "false_positive_rate" "falsePositiveRate"
  let f1 ← optDistListField d "f1" "f1"
  let accuracy ← optDistListField d "accuracy" "accuracy"
  let weighted_precision ← optDistListField d "weighted_precision" "weightedPrecision"
  let weighted_recall ← optDistListField d "weighted_recall" "weightedRecall"
  let weighted_f_measure ← optDistListField d "weighted_f_measure" "weightedFMeasure"
  let weighted_true_positive_rate ←
    optDistListField d "weighted_true_positive_rate" "weightedTruePositiveRate"
  let weighted_false_positive_rate ←
    optDistListField d "weighted_false_positive_rate" "weightedFalsePositiveRate"
  let area_under_roc ← optDistListField d "area_under_roc" "areaUnderRoc"
  let area_under_pr ← optDistListField d "area_under_pr" "areaUnderPr"
  return {
    f1 := f1, accuracy := accuracy, «precision» := «precision», «recall» := «recall»,
    f_measure := f_measure, weighted_precision := weighted_precision,
    weighted_recall := weighted_recall, weighted_f_measure := weighted_f_measure,
    weighted_true_positive_rate := weighted_true_positive_rate,
    weighted_false_positive_rate := weighted_false_positive_rate,
    true_positive_rate := true_positive_rate,
    false_positive_rate := false_positive_rate,
    area_under_roc := area_under_roc, area_under_pr := area_under_pr }

/-- Parse a required pydantic sub-model field whose payload must be a dict. -/
def reqSubModelField (d : Dict) (name aliasName : String)
    (p : Dict → Except String α) : Except String α :=
  match lookupField d name aliasName with
  | none => .error ("missing required field " ++ name)
  | some (.dict sub) => p sub
  | some _ => .error ("invalid sub-model field " ++ name)

/-- Parse an optional pydantic sub-model field. -/
def optSubModelField (d : Dict) (name aliasName : String)
    (p : Dict → Except String α) : Except String (Option α) :=
  match lookupField d name aliasName with
  | none => .ok none
  | some .null => .ok none
  | some (.dict sub) => (p sub).map some
  | some _ => .error ("invalid sub-model field " ++ name)

/-- Mirrors `CurrentBinaryClassificationModelQuality`: a global bundle plus
grouped series. -/
structure CurrentBinaryClassificationModelQuality where
  global_metrics : BinaryClassificationModelQuality
  grouped_metrics : GroupedMetricsBase

def parseCurrentBinaryClassificationModelQuality (d : Dict) :
    Except String CurrentBinaryClassificationModelQuality := do
  let gm ← reqSubModelField d "global_metrics" "globalMetrics"
    parseBinaryClassificationModelQuality
  let gr ← reqSubModelField d "grouped_metrics" "groupedMetrics"
    parseGroupedMetricsBase
  return { global_metrics := gm, grouped_metrics := gr }

/-- Mirrors `ClassMetrics`. -/
structure ClassMetrics where
  class_name : String
  metrics : MetricsBase
  grouped_metrics : Option GroupedMetricsBase := none

def parseClassMetrics (v : Value) : Except String ClassMetrics :=
  match v with
  | .dict d => do
    let cn ← reqStrField d "class_name" "className"
    let m ← reqSubModelField d "metrics" "metrics" parseMetricsBase
    let gm ← optSubModelField d "grouped_metrics" "groupedMetrics" parseGroupedMetricsBase
    return { class_name := cn, metrics := m, grouped_metrics := gm }
  | _ => .error "invalid ClassMetrics payload"

/-- Mirrors `GlobalMetrics`: `MetricsBase` plus a required confusion matrix. -/
structure GlobalMetrics extends MetricsBase where
  confusion_matrix : List (List Int)

def parseIntList (v : Value) : Except String (List Int) :=
  match v with
  | .list vs => vs.mapM (fun c =>
      match c.asInt with
      | some n => Except.ok n
      | none => Except.error "invalid int in confusion matrix")
  | _ => .error "invalid confusion matrix row"

def parseIntMatrix (v : Value) : Except String (List (List Int)) :=
  match v with
  | .list vs => vs.mapM parseIntList
  | _ => .error "invalid confusion matrix"

def parseGlobalMetrics (d : Dict) : Except String GlobalMetrics := do
  let cm ←
    match lookupField d "confusion_matrix" "confusionMatrix" with
    | none => Except.error "missing required field confusion_matrix"
    | some v => parseIntMatrix v
  let base ← parseMetricsBase d
  return { toMetricsBase := base, confusion_matrix := cm }

/-- Parse a required `List[str]` pydantic field. -/
def reqStrListField (d : Dict) (name aliasName : String) : Except String (List String) :=
  match lookupField d name aliasName with
  | none => .error ("missing required field " ++ name)
  | some (.list vs) => vs.mapM (fun c =>
      match c.asStr with
      | some s => Except.ok s
      | none => Except.error ("invalid str in " ++ name))
  | some _ => .error ("invalid str list field " ++ name)

/-- Mirrors `MultiClassificationModelQuality`. -/
structure MultiClassificationModelQuality where
  classes : List String
  class_metrics : List ClassMetrics
  global_metrics : GlobalMetrics

def parseMultiClassificationModelQuality (d : Dict) :
    Except String MultiClassificationModelQuality := do
  let classes ← reqStrListField d "classes" "classes"
  let cms ←
    match lookupField d "class_metrics" "classMetrics" with
    | none => Except.error "missing required field class_metrics"
    | some (.list vs) => vs.mapM parseClassMetrics
    | some _ => Except.error "invalid class_metrics field"
  let gm ← reqSubModelField d "global_metrics" "globalMetrics" parseGlobalMetrics
  return { classes := classes, class_metrics := cms, global_metrics := gm }

/-- Mirrors `RegressionMetricsBase` (declared in the source next to
`BaseRegressionMetrics`, with the same seven optional fields). -/
structure RegressionMetricsBase where
  r2 : Option Rat := none
  mae : Option Rat := none
  mse : Option Rat := none
  variance : Option Rat := none
  mape : Option Rat := none
  rmse : Option Rat := none
  adj_r2 : Option Rat := none

/-- Mirrors `BaseRegressionMetrics`: seven optional float metrics. -/
structure BaseRegressionMetrics where
  r2 : Option Rat := none
  mae : Option Rat := none
  mse : Option Rat := none
  variance : Option Rat := none
  mape : Option Rat := none
  rmse : Option Rat := none
  adj_r2 : Option Rat := none

def parseBaseRegressionMetrics (d : Dict) : Except String BaseRegressionMetrics := do
  let r2 ← optFloatField d "r2" "r2"
  let mae ← optFloatField d "mae" "mae"
  let mse ← optFloatField d "mse" "mse"
  let variance ← optFloatField d "variance" "variance"
  let mape ← optFloatField d "mape" "mape"
  let rmse ← optFloatField d "rmse" "rmse"
  let adj_r2 ← optFloatField d "adj_r2" "adjR2"
  return { r2 := r2, mae := mae, mse := mse, variance := variance,
           mape := mape, rmse := rmse, adj_r2 := adj_r2 }

/-- Mirrors `RegressionModelQuality`, a bare subclass of
`BaseRegressionMetrics`. -/
structure RegressionModelQuality extends BaseRegressionMetrics

def parseRegressionModelQuality (d : Dict) : Except String RegressionModelQuality :=
  (parseBaseRegressionMetrics d).map (fun b => { toBaseRegressionMetrics := b })

/-- Mirrors `GroupedBaseRegressionMetrics`: seven required distribution
series. -/
structure GroupedBaseRegressionMetrics where
  r2 : List Distribution
  mae : List Distribution
  mse : List Distribution
  variance : List Distribution
  mape : List Distribution
  rmse : List Distribution
  adj_r2 : List Distribution

def parseGroupedBaseRegressionMetrics (d : Dict) :
    Except String GroupedBaseRegressionMetrics := do
  let r2 ← reqDistListField d "r2" "r2"
  let mae ← reqDistListField d "mae" "mae"
  let mse ← reqDistListField d "mse" "mse"
  let variance ← reqDistListField d "variance" "variance"
  let mape ← reqDistListField d "mape" "mape"
  let rmse ← reqDistListField d "rmse" "rmse"
  let adj_r2 ← reqDistListField d "adj_r2" "adjR2"
  return { r2 := r2, mae := mae, mse := mse, variance := variance,
           mape := mape, rmse := rmse, adj_r2 := adj_r2 }

/-- Mirrors `CurrentRegressionModelQuality`. -/
structure CurrentRegressionModelQuality where
  global_metrics : BaseRegressionMetrics
  grouped_metrics : GroupedBaseRegressionMetrics

def parseCurrentRegressionModelQuality (d : Dict) :
    Except String CurrentRegressionModelQuality := do
  let gm ← reqSubModelField d "global_metrics" "globalMetrics" parseBaseRegressionMetrics
  let gr ← reqSubModelField d "grouped_metrics" "groupedMetrics"
    parseGroupedBaseRegressionMetrics
  return { global_metrics := gm, grouped_metrics := gr }

/-- Modelled from the spec: the `ModelType` enum (`app.models.model_dto`) is
not under src/; the spec lists binary, multi_class and regression, and the
dispatch code has an explicit fall-through for any other member, modelled by
the `other` constructor. -/
inductive ModelType where
  | BINARY
  | MULTI_CLASS
  | REGRESSION
  | other (s : String)

/-- Modelled from the spec: the `DatasetType` enum (`app.models.dataset_type`)
is not under src/; the spec lists reference and current, and the dispatch
code has an explicit fall-through for any other member, modelled by the
`other` constructor. -/
inductive DatasetType where
  | REFERENCE
  | CURRENT
  | other (s : String)

/-- Modelled from the spec: the `JobStatus` enum (`app.models.job_status`) is
not under src/; `from_dict` only carries it through unchanged, so it is
modelled as an opaque code. -/
structure JobStatus where
  code : String

/-- Errors of the DTO construction: the two `MetricsInternalError` raise
sites of `_create_model_quality` / `_create_*_model_quality`, plus pydantic
`ValidationError`. -/
inductive MetricsError where
  | invalidModelType (s : String)
  | invalidDatasetType (s : String)
  | validationError (s : String)

/-- The union type of `ModelQualityDTO.model_quality`. -/
inductive ModelQualityResult where
  | binary (q : BinaryClassificationModelQuality)
  | currentBinary (q : CurrentBinaryClassificationModelQuality)
  | multiClass (q : MultiClassificationModelQuality)
  | regression (q : RegressionModelQuality)
  | currentRegression (q : CurrentRegressionModelQuality)

/-- Mirrors `ModelQualityDTO`. -/
structure ModelQualityDTO where
  job_status : JobStatus
  model_quality : Option ModelQualityResult

/-- Mirrors `ModelQualityDTO._create_binary_model_quality`. -/
def create_binary_model_quality (dataset_type : DatasetType) (model_quality_data : Dict) :
    Except MetricsError ModelQualityResult :=
  match dataset_type with
  | .REFERENCE =>
    ((parseBinaryClassificationModelQuality model_quality_data).map
      ModelQualityResult.binary).mapError MetricsError.validationError
  | .CURRENT =>
    ((parseCurrentBinaryClassificationModelQuality model_quality_data).map
      ModelQualityResult.currentBinary).mapError MetricsError.validationError
  | .other s => .error (.invalidDatasetType s)

/-- Mirrors `ModelQualityDTO._create_regression_model_quality`. -/
def create_regression_model_quality (dataset_type : DatasetType) (model_quality_data : Dict) :
    Except MetricsError ModelQualityResult :=
  match dataset_type with
  | .REFERENCE =>
    ((parseRegressionModelQuality model_quality_data).map
      ModelQualityResult.regression).mapError MetricsError.validationError
  | .CURRENT =>
    ((parseCurrentRegressionModelQuality model_quality_data).map
      ModelQualityResult.currentRegression).mapError MetricsError.validationError
  | .other s => .error (.invalidDatasetType s)

/-- Mirrors `ModelQualityDTO._create_model_quality`. -/
def create_model_quality (model_type : ModelType) (dataset_type : DatasetType)
    (model_quality_data : Dict) : Except MetricsError ModelQualityResult :=
  match model_type with
  | .BINARY => create_binary_model_quality dataset_type model_quality_data
  | .MULTI_CLASS =>
    ((parseMultiClassificationModelQuality model_quality_data).map
      ModelQualityResult.multiClass).mapError MetricsError.validationError
  | .REGRESSION => create_regression_model_quality dataset_type model_quality_data
  | .other s => .error (.invalidModelType s)

/-- Mirrors `ModelQualityDTO.from_dict`. The Python guard
`if not model_quality_data` is true exactly for `None` and for the empty
dict, in which case the DTO carries `model_quality=None` and no enum
validation happens at all. -/
def ModelQualityDTO.from_dict (dataset_type : DatasetType) (model_type : ModelType)
    (job_status : JobStatus) (model_quality_data : Option Dict) :
    Except MetricsError ModelQualityDTO :=
  match model_quality_data with
  | none => .ok { job_status := job_status, model_quality := none }
  | some [] => .ok { job_status := job_status, model_quality := none }
  | some d =>
    (create_model_quality model_type dataset_type d).map
      (fun q => { job_status := job_status, model_quality := some q })

/-- Modelled from the spec: the dataset abstraction of §3/§4.1 (the engine
module `models.current_dataset` is not under src/). A dataset is an immutable
snapshot of rows over declared columns; a missing cell is `none`. Cells are
kept abstract with decidable equality, which suffices for the descriptive
counts. -/
structure Dataset (α : Type) where
  columns : List String
  rows : List (List (Option α))

/-- Modelled from the spec: the per-dataset descriptive statistics record of
§4.3 (the engine module `metrics.statistics` is not under src/). -/
structure DatasetStatistics where
  n_variables : Nat
  n_observations : Nat
  missing_cells : Nat
  missing_cells_perc : Rat
  duplicate_rows : Nat
  duplicate_rows_perc : Rat

/-- Modelled from the spec: `calculate_statistics_current` (§4.3,
`metrics.statistics` is not under src/): `n_variables` is the declared column
count, `n_observations` the row count, `missing_cells` the number of missing
cells, `missing_cells_perc = 100*missing_cells/(n_variables*n_observations)`,
`duplicate_rows` the number of rows beyond the first occurrence of each
distinct row, and `duplicate_rows_perc = 100*duplicate_rows/n_observations`. -/
def calculate_statistics {α : Type} [DecidableEq α] (ds : Dataset α) : DatasetStatistics :=
  let nv := ds.columns.length
  let no := ds.rows.length
  let mc := (ds.rows.map (fun r => r.countP (fun c => c.isNone))).sum
  let dr := no - ds.rows.dedup.length
  { n_variables := nv
    n_observations := no
    missing_cells := mc
    missing_cells_perc := 100 * (mc : Rat) / ((nv : Rat) * (no : Rat))
    duplicate_rows := dr
    duplicate_rows_perc := 100 * (dr : Rat) / (no : Rat) }

/-- Scenario A fixture, modelled from the spec: the bike-sharing current
dataset (the fixture csv is not under src/) has 100 rows over 14 declared
columns, 7 missing cells and 2 duplicate rows. Row `i` collapses to the row
of `i - 88` for `i = 98, 99` (the two duplicates) and rows 90..96 carry the
seven missing cells. -/
def scenarioADataset : Dataset Nat :=
  { columns := (List.range 14).map (fun i => "col" ++ toString i)
    rows := (List.range 100).map (fun i =>
      let j := if i = 98 then 10 else if i = 99 then 11 else i
      (if 90 ≤ j ∧ j ≤ 96 then none else some 0) :: some j :: List.replicate 12 (some 0)) }

/-- Module-level bucket count of the histogram builder (spec §4.2, default
10; `metrics.data_quality` is not under src/). -/
def nBuckets : Nat := 10

/-- Modelled from the spec: the small epsilon by which a degenerate reference
span (min = max) is widened so the edges stay strictly increasing (§4.2). -/
def histEpsilon : Rat := 1 / 1000

/-- Minimum of a list of rationals (0 for an empty list; the histogram
builder only uses it on non-empty reference columns). -/
def listMin : List Rat → Rat
  | [] => 0
  | x :: xs => xs.foldl min x

/-- Maximum of a list of rationals (0 for an empty list). -/
def listMax : List Rat → Rat
  | [] => 0
  | x :: xs => xs.foldl max x

/-- Modelled from the spec: bucket edge `i` of the equal-width binning over
`[lo, hi]` with `n` buckets (§4.2). -/
def edge (lo hi : Rat) (n i : Nat) : Rat :=
  lo + (i : Rat) * (hi - lo) / (n : Rat)

/-- Modelled from the spec: membership of a value in bucket `i` of `n`:
`[edge_i, edge_{i+1})`, with the last bucket closed on both ends (§4.2). -/
def inBucket (lo hi : Rat) (n i : Nat) (v : Rat) : Prop :=
  edge lo hi n i ≤ v ∧ (v < edge lo hi n (i + 1) ∨ (i + 1 = n ∧ v ≤ edge lo hi n n))

instance (lo hi : Rat) (n i : Nat) (v : Rat) : Decidable (inBucket lo hi n i v) := by
  unfold inBucket; infer_instance

/-- An output histogram: edges (named `buckets` as in the report shape),
reference counts and current counts. -/
structure Histogram where
  buckets : List Rat
  reference_values : List Nat
  current_values : List Nat

/-- Modelled from the spec: the HistogramBuilder of §4.2 (the engine module
is not under src/). Missing values are dropped; the span is the reference
min/max, widened by `histEpsilon` when degenerate; reference values are
counted per bucket; current values are clipped into the span and counted
against the same edges. -/
def buildHistogram (refsOpt cursOpt : List (Option Rat)) : Histogram :=
  let refs := refsOpt.filterMap id
  let curs := cursOpt.filterMap id
  let lo := listMin refs
  let maxv := listMax refs
  let hi := if maxv = lo then lo + histEpsilon else maxv
  let clip : Rat → Rat := fun v => max lo (min v hi)
  { buckets := (List.range (nBuckets + 1)).map (fun i => edge lo hi nBuckets i)
    reference_values := (List.range nBuckets).map
      (fun i => refs.countP (fun v => decide (inBucket lo hi nBuckets i v)))
    current_values := (List.range nBuckets).map
      (fun i => (curs.map clip).countP (fun v => decide (inBucket lo hi nBuckets i v))) }

/-- Scenario B reference column, modelled from the spec: the `yr` reference
column of the bike fixture (csv not under src/) holds 365 zeroes and 366
ones, no missing values. -/
def scenarioBReference : List (Option Rat) :=
  List.replicate 365 (some 0) ++ List.replicate 366 (some 1)

/-- Scenario B current column: 100 zeroes. -/
def scenarioBCurrent : List (Option Rat) :=
  List.replicate 100 (some 0)

/-- Modelled from the spec: the regression metric bundle of §4.4
(`utils.current_regression` is not under src/). Metrics are real-valued;
`rmse` is the square root of the mean squared residual. -/
structure RegressionMetrics where
  r2 : Real
  mae : Real
  mse : Real
  variance : Real
  mape : Real
  rmse : Real
  adj_r2 : Real

/-- Modelled from the spec: the regression metric formulas of §4.4 over the
(target, prediction) pairs of the rows where both are non-missing
(`utils.current_regression` is not under src/). `p` is the declared feature
column count feeding `adj_r2`. -/
noncomputable def calculate_regression_metrics (p : Nat) (rows : List (Real × Real)) :
    RegressionMetrics :=
  letI := Classical.propDecidable
  let n : Real := rows.length
  let residuals := rows.map (fun r => r.1 - r.2)
  let maeV := (residuals.map (fun x => |x|)).sum / n
  let mseV := (residuals.map (fun x => x ^ 2)).sum / n
  let ybar := (rows.map (fun r => r.1)).sum / n
  let ssTot := (rows.map (fun r => (r.1 - ybar) ^ 2)).sum
  let r2V := 1 - (residuals.map (fun x => x ^ 2)).sum / ssTot
  let nzRows := rows.filter (fun r => decide (r.1 ≠ 0))
  let mapeV := 100 * ((nzRows.map (fun r => |r.1 - r.2| / |r.1|)).sum / nzRows.length)
  let rbar := residuals.sum / n
  let varV := (residuals.map (fun x => (x - rbar) ^ 2)).sum / n
  { r2 := r2V
    mae := maeV
    mse := mseV
    variance := varV
    mape := mapeV
    rmse := Real.sqrt mseV
    adj_r2 := 1 - (1 - r2V) * (n - 1) / (n - (p : Real) - 1) }

/-- Modelled from the spec: the grouped (time-bucketed) regression bundles of
§4.4: rows carry a timestamp key, `bucketOf` is the granularity floor, and
each non-empty bucket gets one bundle, buckets sorted ascending. -/
noncomputable def grouped_regression_metrics (p : Nat) (bucketOf : Nat → Nat)
    (rows : List (Nat × Real × Real)) : List (Nat × RegressionMetrics) :=
  let keys := ((rows.map (fun r => bucketOf r.1)).dedup).insertionSort (· ≤ ·)
  keys.map (fun k =>
    (k, calculate_regression_metrics p
      ((rows.filter (fun r => bucketOf r.1 = k)).map (fun r => r.2))))

/-- Drift test kinds of the drift report (spec §4.5). -/
inductive DriftTestType where
  | KS
  | CHI2

/-- One per-column drift verdict, as recorded in the drift report. -/
structure DriftCalc where
  type : DriftTestType
  value : Rat
  has_drift : Bool

/-- A per-feature drift entry of the drift report. -/
structure FeatureDriftRecord where
  feature_name : String
  drift_calc : DriftCalc

/-- Modelled from the spec: the drift report of
`test_drift_regression_chi` (src/spark/tests/regression_current_test.py,
lines 762-847). The drift engine itself is not under src/, so the report
recorded by the test is the authority for what the computation yields; per
the spec (Scenario D), the `Sex` column has identical reference and current
distributions. -/
def drift_regression_chi_expected : List FeatureDriftRecord :=
  [ { feature_name := "Sex",
      drift_calc := { type := .CHI2, value := 0, has_drift := true } },
    { feature_name := "pred_id",
      drift_calc := { type := .CHI2, value := 0.2397280792131291, has_drift := false } },
    { feature_name := "Length",
      drift_calc := { type := .KS, value := 0.0239680774, has_drift := false } },
    { feature_name := "Diameter",
      drift_calc := { type := .KS, value := 0.0301533877, has_drift := false } },
    { feature_name := "Height",
      drift_calc := { type := .KS, value := 0.065718922, has_drift := true } },
    { feature_name := "Whole_weight",
      drift_calc := { type := .KS, value := 0.0023194914, has_drift := false } },
    { feature_name := "Shucked_weight",
      drift_calc := { type := .KS, value := 0.0030926552, has_drift := false } },
    { feature_name := "Viscera_weight",
      drift_calc := { type := .KS, value := 0.0038658189, has_drift := false } },
    { feature_name := "Shell_weight",
      drift_calc := { type := .KS, value := 0.010824293, has_drift := false } } ]

/-- A grouped metric point of the recorded model-quality report (timestamped
value; all recorded points carry a value). -/
structure TimePoint where
  timestamp : String
  value : Rat

/-- The recorded global regression bundle of the bike fixture. -/
structure RegressionGlobalRecord where
  mae : Rat
  mape : Rat
  mse : Rat
  rmse : Rat
  r2 : Rat
  adj_r2 : Rat
  variance : Rat

/-- The recorded grouped regression series of the bike fixture. -/
structure GroupedRegressionRecord where
  mae : List TimePoint
  mape : List TimePoint
  mse : List TimePoint
  rmse : List TimePoint
  r2 : List TimePoint
  adj_r2 : List TimePoint
  variance : List TimePoint

/-- The recorded model-quality report of the bike fixture. -/
structure ModelQualityRecord where
  global_metrics : RegressionGlobalRecord
  grouped_metrics : GroupedRegressionRecord

/-- Modelled from the spec: the CURRENT regression model-quality report of
the bike-sharing fixture as recorded by `test_model_quality`
(src/spark/tests/regression_current_test.py, lines 584-655). The engine and
the fixture csv are not under src/, so the report recorded by the test is
the authority for what the computation yields; its four grouped points are
the four non-empty month buckets of the fixture. -/
def bike_model_quality_expected : ModelQualityRecord :=
  { global_metrics :=
      { mae := 71.82559791564941
        mape := 64.05699022707124
        mse := 17820.506660010054
        rmse := 133.49347047706138
        r2 := 0.8210737408739541
        adj_r2 := 0.7987079584831984
        variance := 118288.02759401732 }
    grouped_metrics :=
      { mae :=
          [ { timestamp := "2011-01-01 00:00:00", value := 35.67896665375808 },
            { timestamp := "2011-02-01 00:00:00", value := 89.13965238373855 },
            { timestamp := "2011-03-01 00:00:00", value := 91.54030847549438 },
            { timestamp := "2011-04-01 00:00:00", value := 63.352996826171875 } ]
        mape :=
          [ { timestamp := "2011-01-01 00:00:00", value := 106.34668638669385 },
            { timestamp := "2011-02-01 00:00:00", value := 50.266650033642435 },
            { timestamp := "2011-03-01 00:00:00", value := 53.63275529139244 },
            { timestamp := "2011-04-01 00:00:00", value := 14.766409719281478 } ]
        mse :=
          [ { timestamp := "2011-01-01 00:00:00", value := 2848.1117152678507 },
            { timestamp := "2011-02-01 00:00:00", value := 21631.812814960613 },
            { timestamp := "2011-03-01 00:00:00", value := 31460.34954782362 },
            { timestamp := "2011-04-01 00:00:00", value := 6540.166909402423 } ]
        rmse :=
          [ { timestamp := "2011-01-01 00:00:00", value := 53.36770292290882 },
            { timestamp := "2011-02-01 00:00:00", value := 147.07757414018158 },
            { timestamp := "2011-03-01 00:00:00", value := 177.37065582509305 },
            { timestamp := "2011-04-01 00:00:00", value := 80.87129842782556 } ]
        r2 :=
          [ { timestamp := "2011-01-01 00:00:00", value := 0.17834457710460982 },
            { timestamp := "2011-02-01 00:00:00", value := 0.3895389519246505 },
            { timestamp := "2011-03-01 00:00:00", value := 0.7043715304337479 },
            { timestamp := "2011-04-01 00:00:00", value := 0.9678020649997567 } ]
        adj_r2 :=
          [ { timestamp := "2011-01-01 00:00:00", value := -0.3533148141806426 },
            { timestamp := "2011-02-01 00:00:00", value := -0.005465255653516854 },
            { timestamp := "2011-03-01 00:00:00", value := 0.5417758721723092 },
            { timestamp := "2011-04-01 00:00:00", value := 1.1448907075010948 } ]
        variance :=
          [ { timestamp := "2011-01-01 00:00:00", value := 4720.867246089001 },
            { timestamp := "2011-02-01 00:00:00", value := 70942.48575413873 },
            { timestamp := "2011-03-01 00:00:00", value := 150522.0080596708 },
            { timestamp := "2011-04-01 00:00:00", value := 163422.9263027128 } ] } }

/-- Chronological order on the recorded timestamps, lexicographic on their
character lists (the recorded bucket-start strings are zero-padded, so this
is chronological order). -/
def tsLt (a b : String) : Prop := a.data < b.data

/-- Decidability of the timestamp order (needed to evaluate concrete
sortedness facts). -/
instance (a b : String) : Decidable (tsLt a b) := by
  unfold tsLt; infer_instance

/-- All declared field names and camel aliases of
`BinaryClassificationModelQuality`'s base `MetricsBase`. -/
def metricsBaseKeys : List String :=
  ["f1", "accuracy", "precision", "recall", "f_measure", "fMeasure",
   "weighted_precision", "weightedPrecision", "weighted_recall", "weightedRecall",
   "weighted_f_measure", "weightedFMeasure",
   "weighted_true_positive_rate", "weightedTruePositiveRate",
   "weighted_false_positive_rate", "weightedFalsePositiveRate",
   "true_positive_rate", "truePositiveRate",
   "false_positive_rate", "falsePositiveRate",
   "area_under_roc", "areaUnderRoc", "area_under_pr", "areaUnderPr"]

/-- All declared field names and camel aliases of
`BinaryClassificationModelQuality`. -/
def binaryQualityKeys : List String :=
  metricsBaseKeys ++
  ["true_positive_count", "truePositiveCount",
   "false_positive_count", "falsePositiveCount",
   "true_negative_count", "trueNegativeCount",
   "false_negative_count", "falseNegativeCount"]

/-- Field names and camel aliases of the two current-quality wrappers
(`CurrentBinaryClassificationModelQuality`,
`CurrentRegressionModelQuality`). -/
def currentQualityKeys : List String :=
  ["global_metrics", "globalMetrics", "grouped_metrics", "groupedMetrics"]

/-- Field names and camel aliases of `MultiClassificationModelQuality`. -/
def multiQualityKeys : List String :=
  ["classes", "class_metrics", "classMetrics", "global_metrics", "globalMetrics"]

/-- Field names and camel aliases of `RegressionModelQuality` /
`BaseRegressionMetrics`. -/
def regressionQualityKeys : List String :=
  ["r2", "mae", "mse", "variance", "mape", "rmse", "adj_r2", "adjR2"]

/-! Theorems. -/

/-- C9: for every dataset_type, model_type and job_status, `from_dict`
returns a DTO carrying the given job status with `model_quality = None`
whenever the mapping is `None` or empty, and never fails — even for
unsupported enum members, since the empty-input guard precedes all enum
dispatch. -/
theorem from_dict_empty_mapping (dataset_type : DatasetType) (model_type : ModelType)
    (job_status : JobStatus) :
    ModelQualityDTO.from_dict dataset_type model_type job_status none =
      .ok { job_status := job_status, model_quality := none } ∧
    ModelQualityDTO.from_dict dataset_type model_type job_status (some []) =
      .ok { job_status := job_status, model_quality := none } :=
  ⟨rfl, rfl⟩

/-- C10: for model_type MULTI_CLASS the construction ignores dataset_type
entirely: for every mapping it returns the parsed
`MultiClassificationModelQuality`, the same for every dataset_type, with no
dataset-type validation. -/
theorem create_model_quality_multiclass_ignores_dataset_type
    (dataset_type : DatasetType) (d : Dict) :
    create_model_quality .MULTI_CLASS dataset_type d =
      ((parseMultiClassificationModelQuality d).map
        ModelQualityResult.multiClass).mapError MetricsError.validationError ∧
    ∀ dataset_type₂ : DatasetType,
      create_model_quality .MULTI_CLASS dataset_type d =
        create_model_quality .MULTI_CLASS dataset_type₂ d :=
  ⟨rfl, fun _ => rfl⟩

/-- C1: for every non-empty mapping, `from_dict` selects the concrete result
shape determined by (model_type, dataset_type): (BINARY, REFERENCE) the
binary shape, (BINARY, CURRENT) the current-binary shape, MULTI_CLASS the
multiclass shape for any dataset_type, (REGRESSION, REFERENCE) the
regression shape and (REGRESSION, CURRENT) the current-regression shape. -/
theorem from_dict_shape_selection (d : Dict) (hd : d ≠ []) (js : JobStatus) :
    (ModelQualityDTO.from_dict .REFERENCE .BINARY js (some d) =
      ((parseBinaryClassificationModelQuality d).map (fun q =>
        ({ job_status := js, model_quality := some (.binary q) } : ModelQualityDTO))).mapError
        MetricsError.validationError) ∧
    (ModelQualityDTO.from_dict .CURRENT .BINARY js (some d) =
      ((parseCurrentBinaryClassificationModelQuality d).map (fun q =>
        ({ job_status := js, model_quality := some (.currentBinary q) } :
          ModelQualityDTO))).mapError MetricsError.validationError) ∧
    (∀ dataset_type : DatasetType,
      ModelQualityDTO.from_dict dataset_type .MULTI_CLASS js (some d) =
        ((parseMultiClassificationModelQuality d).map (fun q =>
          ({ job_status := js, model_quality := some (.multiClass q) } :
            ModelQualityDTO))).mapError MetricsError.validationError) ∧
    (ModelQualityDTO.from_dict .REFERENCE .REGRESSION js (some d) =
      ((parseRegressionModelQuality d).map (fun q =>
        ({ job_status := js, model_quality := some (.regression q) } :
          ModelQualityDTO))).mapError MetricsError.validationError) ∧
    (ModelQualityDTO.from_dict .CURRENT .REGRESSION js (some d) =
      ((parseCurrentRegressionModelQuality d).map (fun q =>
        ({ job_status := js, model_quality := some (.currentRegression q) } :
          ModelQualityDTO))).mapError MetricsError.validationError) := by
  obtain ⟨x, xs, rfl⟩ := List.exists_cons_of_ne_nil hd
  refine ⟨?_, ?_, fun dataset_type => ?_, ?_, ?_⟩
  · cases h : parseBinaryClassificationModelQuality (x :: xs) <;>
      simp [ModelQualityDTO.from_dict, create_model_quality,
        create_binary_model_quality, h, Except.map, Except.mapError]
  · cases h : parseCurrentBinaryClassificationModelQuality (x :: xs) <;>
      simp [ModelQualityDTO.from_dict, create_model_quality,
        create_binary_model_quality, h, Except.map, Except.mapError]
  · cases h : parseMultiClassificationModelQuality (x :: xs) <;>
      simp [ModelQualityDTO.from_dict, create_model_quality, h,
        Except.map, Except.mapError]
  · cases h : parseRegressionModelQuality (x :: xs) <;>
      simp [ModelQualityDTO.from_dict, create_model_quality,
        create_regression_model_quality, h, Except.map, Except.mapError]
  · cases h : parseCurrentRegressionModelQuality (x :: xs) <;>
      simp [ModelQualityDTO.from_dict, create_model_quality,
        create_regression_model_quality, h, Except.map, Except.mapError]

/-- Witness for C1 at a concrete non-empty mapping: the regression-reference
combination parses the mapping (whose single key is not a schema field) into
the all-`None` regression shape. -/
theorem from_dict_shape_selection_witness :
    (([("a", Value.int 0)] : Dict) ≠ []) ∧
    ModelQualityDTO.from_dict .REFERENCE .REGRESSION ⟨"SUCCEEDED"⟩
        (some [("a", Value.int 0)]) =
      .ok { job_status := ⟨"SUCCEEDED"⟩,
            model_quality := some (.regression { toBaseRegressionMetrics := {} }) } :=
  ⟨List.cons_ne_nil _ _,
   ((from_dict_shape_selection [("a", Value.int 0)]
      (List.cons_ne_nil _ _) ⟨"SUCCEEDED"⟩).2.2.2.1).trans rfl⟩

/-- C2: for every non-empty mapping, construction fails with the
invalid-model-type error when model_type is outside {BINARY, MULTI_CLASS,
REGRESSION} (for every dataset_type), and fails with the
invalid-dataset-type error when dataset_type is outside {REFERENCE, CURRENT}
for a binary or regression model; the `Except.error` result carries no
partial DTO. -/
theorem from_dict_invalid_enum (d : Dict) (hd : d ≠ []) (js : JobStatus) (s t : String) :
    (∀ dataset_type : DatasetType,
      ModelQualityDTO.from_dict dataset_type (.other s) js (some d) =
        .error (.invalidModelType s)) ∧
    (ModelQualityDTO.from_dict (.other t) .BINARY js (some d) =
      .error (.invalidDatasetType t)) ∧
    (ModelQualityDTO.from_dict (.other t) .REGRESSION js (some d) =
      .error (.invalidDatasetType t)) := by
  obtain ⟨x, xs, rfl⟩ := List.exists_cons_of_ne_nil hd
  exact ⟨fun _ => rfl, rfl, rfl⟩

/-- Witness for C2 at a concrete non-empty mapping and concrete unsupported
enum members. -/
theorem from_dict_invalid_enum_witness :
    (([("a", Value.int 0)] : Dict) ≠ []) ∧
    ModelQualityDTO.from_dict .REFERENCE (.other "TEXT_GENERATION") ⟨"SUCCEEDED"⟩
        (some [("a", Value.int 0)]) = .error (.invalidModelType "TEXT_GENERATION") ∧
    ModelQualityDTO.from_dict (.other "EMBEDDINGS") .BINARY ⟨"SUCCEEDED"⟩
        (some [("a", Value.int 0)]) = .error (.invalidDatasetType "EMBEDDINGS") :=
  ⟨List.cons_ne_nil _ _,
   (from_dict_invalid_enum [("a", Value.int 0)] (List.cons_ne_nil _ _)
      ⟨"SUCCEEDED"⟩ "TEXT_GENERATION" "EMBEDDINGS").1 .REFERENCE,
   (from_dict_invalid_enum [("a", Value.int 0)] (List.cons_ne_nil _ _)
      ⟨"SUCCEEDED"⟩ "TEXT_GENERATION" "EMBEDDINGS").2.1⟩

/-- Binding a success in the `Except` monad applies the continuation. -/
theorem except_bind_ok {ε α β : Type} (a : α) (f : α → Except ε β) :
    (Except.ok a >>= f : Except ε β) = f a := rfl

/-- Binding an error in the `Except` monad short-circuits. -/
theorem except_bind_error {ε α β : Type} (e : ε) (f : α → Except ε β) :
    (Except.error e >>= f : Except ε β) = Except.error e := rfl

/-- Appending an entry under a different key does not change a lookup. -/
theorem lookup_append_single {β : Type} {k key : String} (v : β)
    (d : List (String × β)) (h : k ≠ key) :
    (d ++ [(k, v)]).lookup key = d.lookup key := by
  induction d with
  | nil =>
    have hb : (key == k) = false := beq_eq_false_iff_ne.mpr (Ne.symm h)
    simp [List.lookup, hb]
  | cons p rest ih =>
    obtain ⟨a, b⟩ := p
    simp only [List.cons_append, List.lookup]
    split <;> simp [ih]

/-- A pydantic field lookup is unchanged by an extra entry under a key that
is neither the field name nor its alias. -/
theorem lookupField_append {k : String} (v : Value) (d : Dict) (name aliasName : String)
    (h1 : k ≠ name) (h2 : k ≠ aliasName) :
    lookupField (d ++ [(k, v)]) name aliasName = lookupField d name aliasName := by
  unfold lookupField
  rw [lookup_append_single v d h2, lookup_append_single v d h1]

theorem optFloatField_append {k : String} (v : Value) (d : Dict) (name aliasName : String)
    (h1 : k ≠ name) (h2 : k ≠ aliasName) :
    optFloatField (d ++ [(k, v)]) name aliasName = optFloatField d name aliasName := by
  unfold optFloatField
  rw [lookupField_append v d name aliasName h1 h2]

theorem reqIntField_append {k : String} (v : Value) (d : Dict) (name aliasName : String)
    (h1 : k ≠ name) (h2 : k ≠ aliasName) :
    reqIntField (d ++ [(k, v)]) name aliasName = reqIntField d name aliasName := by
  unfold reqIntField
  rw [lookupField_append v d name aliasName h1 h2]

theorem reqStrListField_append {k : String} (v : Value) (d : Dict) (name aliasName : String)
    (h1 : k ≠ name) (h2 : k ≠ aliasName) :
    reqStrListField (d ++ [(k, v)]) name aliasName = reqStrListField d name aliasName := by
  unfold reqStrListField
  rw [lookupField_append v d name aliasName h1 h2]

theorem reqSubModelField_append {α : Type} {k : String} (v : Value) (d : Dict)
    (name aliasName : String) (p : Dict → Except String α)
    (h1 : k ≠ name) (h2 : k ≠ aliasName) :
    reqSubModelField (d ++ [(k, v)]) name aliasName p =
      reqSubModelField d name aliasName p := by
  unfold reqSubModelField
  rw [lookupField_append v d name aliasName h1 h2]

/-- An extra entry under a key outside the `MetricsBase` schema is ignored. -/
theorem parseMetricsBase_append {k : String} (v : Value) (d : Dict)
    (hk : k ∉ metricsBaseKeys) :
    parseMetricsBase (d ++ [(k, v)]) = parseMetricsBase d := by
  have hne : ∀ s, s ∈ metricsBaseKeys → k ≠ s := fun s hs he => hk (he ▸ hs)
  unfold parseMetricsBase
  rw [optFloatField_append v d "f1" "f1" (hne _ (by decide)) (hne _ (by decide)),
      optFloatField_append v d "accuracy" "accuracy" (hne _ (by decide)) (hne _ (by decide)),
      optFloatField_append v d "precision" "precision" (hne _ (by decide)) (hne _ (by decide)),
      optFloatField_append v d "recall" "recall" (hne _ (by decide)) (hne _ (by decide)),
      optFloatField_append v d "f_measure" "fMeasure" (hne _ (by decide)) (hne _ (by decide)),
      optFloatField_append v d "weighted_precision" "weightedPrecision" (hne _ (by decide)) (hne _ (by decide)),
      optFloatField_append v d "weighted_recall" "weightedRecall" (hne _ (by decide)) (hne _ (by decide)),
      optFloatField_append v d "weighted_f_measure" "weightedFMeasure" (hne _ (by decide)) (hne _ (by decide)),
      optFloatField_append v d "weighted_true_positive_rate" "weightedTruePositiveRate" (hne _ (by decide)) (hne _ (by decide)),
      optFloatField_append v d "weighted_false_positive_rate" "weightedFalsePositiveRate" (hne _ (by decide)) (hne _ (by decide)),
      optFloatField_append v d "true_positive_rate" "truePositiveRate" (hne _ (by decide)) (hne _ (by decide)),
      optFloatField_append v d "false_positive_rate" "falsePositiveRate" (hne _ (by decide)) (hne _ (by decide)),
      optFloatField_append v d "area_under_roc" "areaUnderRoc" (hne _ (by decide)) (hne _ (by decide)),
      optFloatField_append v d "area_under_pr" "areaUnderPr" (hne _ (by decide)) (hne _ (by decide))]

/-- An extra entry under a key outside the binary-quality schema is
ignored. -/
theorem parseBinaryQuality_append {k : String} (v : Value) (d : Dict)
    (hk : k ∉ binaryQualityKeys) :
    parseBinaryClassificationModelQuality (d ++ [(k, v)]) =
      parseBinaryClassificationModelQuality d := by
  have hmb : k ∉ metricsBaseKeys := fun hm => hk (List.mem_append_left _ hm)
  have hne : ∀ s, s ∈ binaryQualityKeys → k ≠ s := fun s hs he => hk (he ▸ hs)
  unfold parseBinaryClassificationModelQuality
  rw [reqIntField_append v d "true_positive_count" "truePositiveCount" (hne _ (by decide)) (hne _ (by decide)),
      reqIntField_append v d "false_positive_count" "falsePositiveCount" (hne _ (by decide)) (hne _ (by decide)),
      reqIntField_append v d "true_negative_count" "trueNegativeCount" (hne _ (by decide)) (hne _ (by decide)),
      reqIntField_append v d "false_negative_count" "falseNegativeCount" (hne _ (by decide)) (hne _ (by decide)),
      parseMetricsBase_append v d hmb]

/-- An extra entry under a key outside the current-binary schema is
ignored. -/
theorem parseCurrentBinaryQuality_append {k : String} (v : Value) (d : Dict)
    (hk : k ∉ currentQualityKeys) :
    parseCurrentBinaryClassificationModelQuality (d ++ [(k, v)]) =
      parseCurrentBinaryClassificationModelQuality d := by
  have hne : ∀ s, s ∈ currentQualityKeys → k ≠ s := fun s hs he => hk (he ▸ hs)
  unfold parseCurrentBinaryClassificationModelQuality
  rw [reqSubModelField_append v d "global_metrics" "globalMetrics" _
        (hne _ (by decide)) (hne _ (by decide)),
      reqSubModelField_append v d "grouped_metrics" "groupedMetrics" _
        (hne _ (by decide)) (hne _ (by decide))]

/-- An extra entry under a key outside the multiclass schema is ignored. -/
theorem parseMultiQuality_append {k : String} (v : Value) (d : Dict)
    (hk : k ∉ multiQualityKeys) :
    parseMultiClassificationModelQuality (d ++ [(k, v)]) =
      parseMultiClassificationModelQuality d := by
  have hne : ∀ s, s ∈ multiQualityKeys → k ≠ s := fun s hs he => hk (he ▸ hs)
  unfold parseMultiClassificationModelQuality
  rw [reqStrListField_append v d "classes" "classes"
        (hne _ (by decide)) (hne _ (by decide)),
      lookupField_append v d "class_metrics" "classMetrics"
        (hne _ (by decide)) (hne _ (by decide)),
      reqSubModelField_append v d "global_metrics" "globalMetrics" _
        (hne _ (by decide)) (hne _ (by decide))]

/-- An extra entry under a key outside the regression schema is ignored. -/
theorem parseBaseRegression_append {k : String} (v : Value) (d : Dict)
    (hk : k ∉ regressionQualityKeys) :
    parseBaseRegressionMetrics (d ++ [(k, v)]) = parseBaseRegressionMetrics d := by
  have hne : ∀ s, s ∈ regressionQualityKeys → k ≠ s := fun s hs he => hk (he ▸ hs)
  unfold parseBaseRegressionMetrics
  rw [optFloatField_append v d "r2" "r2" (hne _ (by decide)) (hne _ (by decide)),
      optFloatField_append v d "mae" "mae" (hne _ (by decide)) (hne _ (by decide)),
      optFloatField_append v d "mse" "mse" (hne _ (by decide)) (hne _ (by decide)),
      optFloatField_append v d "variance" "variance" (hne _ (by decide)) (hne _ (by decide)),
      optFloatField_append v d "mape" "mape" (hne _ (by decide)) (hne _ (by decide)),
      optFloatField_append v d "rmse" "rmse" (hne _ (by decide)) (hne _ (by decide)),
      optFloatField_append v d "adj_r2" "adjR2" (hne _ (by decide)) (hne _ (by decide))]

theorem parseRegressionQuality_append {k : String} (v : Value) (d : Dict)
    (hk : k ∉ regressionQualityKeys) :
    parseRegressionModelQuality (d ++ [(k, v)]) = parseRegressionModelQuality d := by
  unfold parseRegressionModelQuality
  rw [parseBaseRegression_append v d hk]

/-- An extra entry under a key outside the current-regression schema is
ignored. -/
theorem parseCurrentRegressionQuality_append {k : String} (v : Value) (d : Dict)
    (hk : k ∉ currentQualityKeys) :
    parseCurrentRegressionModelQuality (d ++ [(k, v)]) =
      parseCurrentRegressionModelQuality d := by
  have hne : ∀ s, s ∈ currentQualityKeys → k ≠ s := fun s hs he => hk (he ▸ hs)
  unfold parseCurrentRegressionModelQuality
  rw [reqSubModelField_append v d "global_metrics" "globalMetrics" _
        (hne _ (by decide)) (hne _ (by decide)),
      reqSubModelField_append v d "grouped_metrics" "groupedMetrics" _
        (hne _ (by decide)) (hne _ (by decide))]

/-- Validation of a binary quality payload fails when any of its four
required count fields is absent (under both its name and its alias). -/
theorem parseBinaryQuality_missing {d : Dict}
    (h : lookupField d "true_positive_count" "truePositiveCount" = none ∨
         lookupField d "false_positive_count" "falsePositiveCount" = none ∨
         lookupField d "true_negative_count" "trueNegativeCount" = none ∨
         lookupField d "false_negative_count" "falseNegativeCount" = none) :
    ∃ e, parseBinaryClassificationModelQuality d = Except.error e := by
  unfold parseBinaryClassificationModelQuality
  rcases h with h | h | h | h
  · exact ⟨"missing required field true_positive_count", by
      simp only [reqIntField, h, except_bind_error] <;> rfl⟩
  · cases hc1 : reqIntField d "true_positive_count" "truePositiveCount" with
    | error e => exact ⟨e, by simp only [hc1, except_bind_error] <;> rfl⟩
    | ok tp =>
      exact ⟨"missing required field false_positive_count", by
        simp only [hc1, except_bind_ok, reqIntField, h, except_bind_error] <;> rfl⟩
  · cases hc1 : reqIntField d "true_positive_count" "truePositiveCount" with
    | error e => exact ⟨e, by simp only [hc1, except_bind_error] <;> rfl⟩
    | ok tp =>
      cases hc2 : reqIntField d "false_positive_count" "falsePositiveCount" with
      | error e =>
        exact ⟨e, by simp only [hc1, except_bind_ok, hc2, except_bind_error] <;> rfl⟩
      | ok fp =>
        exact ⟨"missing required field true_negative_count", by
          simp only [hc1, hc2, except_bind_ok, reqIntField, h, except_bind_error] <;> rfl⟩
  · cases hc1 : reqIntField d "true_positive_count" "truePositiveCount" with
    | error e => exact ⟨e, by simp only [hc1, except_bind_error] <;> rfl⟩
    | ok tp =>
      cases hc2 : reqIntField d "false_positive_count" "falsePositiveCount" with
      | error e =>
        exact ⟨e, by simp only [hc1, except_bind_ok, hc2, except_bind_error] <;> rfl⟩
      | ok fp =>
        cases hc3 : reqIntField d "true_negative_count" "trueNegativeCount" with
        | error e =>
          exact ⟨e, by
            simp only [hc1, hc2, except_bind_ok, hc3, except_bind_error] <;> rfl⟩
        | ok tn =>
          exact ⟨"missing required field false_negative_count", by
            simp only [hc1, hc2, hc3, except_bind_ok, reqIntField, h,
              except_bind_error] <;> rfl⟩

/-- Validation of a current-binary quality payload fails when either of its
two required sub-model fields is absent. -/
theorem parseCurrentBinaryQuality_missing {d : Dict}
    (h : lookupField d "global_metrics" "globalMetrics" = none ∨
         lookupField d "grouped_metrics" "groupedMetrics" = none) :
    ∃ e, parseCurrentBinaryClassificationModelQuality d = Except.error e := by
  unfold parseCurrentBinaryClassificationModelQuality
  rcases h with h | h
  · exact ⟨"missing required field global_metrics", by
      simp only [reqSubModelField, h, except_bind_error] <;> rfl⟩
  · cases hc : reqSubModelField d "global_metrics" "globalMetrics"
        parseBinaryClassificationModelQuality with
    | error e => exact ⟨e, by simp only [hc, except_bind_error] <;> rfl⟩
    | ok gm =>
      exact ⟨"missing required field grouped_metrics", by
        simp only [hc, except_bind_ok, reqSubModelField, h, except_bind_error] <;> rfl⟩

/-- Validation of a multiclass quality payload fails when any of its three
required fields is absent. -/
theorem parseMultiQuality_missing {d : Dict}
    (h : lookupField d "classes" "classes" = none ∨
         lookupField d "class_metrics" "classMetrics" = none ∨
         lookupField d "global_metrics" "globalMetrics" = none) :
    ∃ e, parseMultiClassificationModelQuality d = Except.error e := by
  unfold parseMultiClassificationModelQuality
  rcases h with h | h | h
  · exact ⟨"missing required field classes", by
      simp only [reqStrListField, h, except_bind_error] <;> rfl⟩
  · cases hc : reqStrListField d "classes" "classes" with
    | error e => exact ⟨e, by simp only [hc, except_bind_error] <;> rfl⟩
    | ok cs =>
      exact ⟨"missing required field class_metrics", by
        simp only [hc, except_bind_ok, h, except_bind_error] <;> rfl⟩
  · cases hc : reqStrListField d "classes" "classes" with
    | error e => exact ⟨e, by simp only [hc, except_bind_error] <;> rfl⟩
    | ok cs =>
      cases hc2 : lookupField d "class_metrics" "classMetrics" with
      | none =>
        exact ⟨"missing required field class_metrics", by
          simp only [hc, except_bind_ok, hc2, except_bind_error] <;> rfl⟩
      | some v =>
        cases v with
        | list vs =>
          cases hc3 : vs.mapM parseClassMetrics with
          | error e =>
            exact ⟨e, by
              simp only [hc, except_bind_ok, hc2, hc3, except_bind_error] <;> rfl⟩
          | ok cms =>
            exact ⟨"missing required field global_metrics", by
              simp only [hc, except_bind_ok, hc2, hc3, reqSubModelField, h,
                except_bind_error] <;> rfl⟩
        | null =>
          exact ⟨"invalid class_metrics field", by
            simp only [hc, except_bind_ok, hc2, except_bind_error] <;> rfl⟩
        | bool b =>
          exact ⟨"invalid class_metrics field", by
            simp only [hc, except_bind_ok, hc2, except_bind_error] <;> rfl⟩
        | int n =>
          exact ⟨"invalid class_metrics field", by
            simp only [hc, except_bind_ok, hc2, except_bind_error] <;> rfl⟩
        | float q =>
          exact ⟨"invalid class_metrics field", by
            simp only [hc, except_bind_ok, hc2, except_bind_error] <;> rfl⟩
        | str s =>
          exact ⟨"invalid class_metrics field", by
            simp only [hc, except_bind_ok, hc2, except_bind_error] <;> rfl⟩
        | dict fields =>
          exact ⟨"invalid class_metrics field", by
            simp only [hc, except_bind_ok, hc2, except_bind_error] <;> rfl⟩

/-- Validation of a current-regression quality payload fails when either of
its two required sub-model fields is absent. -/
theorem parseCurrentRegressionQuality_missing {d : Dict}
    (h : lookupField d "global_metrics" "globalMetrics" = none ∨
         lookupField d "grouped_metrics" "groupedMetrics" = none) :
    ∃ e, parseCurrentRegressionModelQuality d = Except.error e := by
  unfold parseCurrentRegressionModelQuality
  rcases h with h | h
  · exact ⟨"missing required field global_metrics", by
      simp only [reqSubModelField, h, except_bind_error] <;> rfl⟩
  · cases hc : reqSubModelField d "global_metrics" "globalMetrics"
        parseBaseRegressionMetrics with
    | error e => exact ⟨e, by simp only [hc, except_bind_error] <;> rfl⟩
    | ok gm =>
      exact ⟨"missing required field grouped_metrics", by
        simp only [hc, except_bind_ok, reqSubModelField, h, except_bind_error] <;> rfl⟩

/-- C8 (amended): for every model_type and dataset_type, constructing the
concrete quality result fails fast when a required field of the selected
shape is missing from the mapping (the regression-reference shape has no
required fields), but a mapping containing an extra field not in the schema
is silently admitted: the extra field is ignored and the result is the same
as without it (pydantic's default extra-field behaviour). -/
theorem quality_construction_missing_and_extra :
    (∀ d : Dict,
      (lookupField d "true_positive_count" "truePositiveCount" = none ∨
       lookupField d "false_positive_count" "falsePositiveCount" = none ∨
       lookupField d "true_negative_count" "trueNegativeCount" = none ∨
       lookupField d "false_negative_count" "falseNegativeCount" = none) →
      ∃ e, parseBinaryClassificationModelQuality d = Except.error e) ∧
    (∀ d : Dict,
      (lookupField d "global_metrics" "globalMetrics" = none ∨
       lookupField d "grouped_metrics" "groupedMetrics" = none) →
      ∃ e, parseCurrentBinaryClassificationModelQuality d = Except.error e) ∧
    (∀ d : Dict,
      (lookupField d "classes" "classes" = none ∨
       lookupField d "class_metrics" "classMetrics" = none ∨
       lookupField d "global_metrics" "globalMetrics" = none) →
      ∃ e, parseMultiClassificationModelQuality d = Except.error e) ∧
    (∀ d : Dict,
      (lookupField d "global_metrics" "globalMetrics" = none ∨
       lookupField d "grouped_metrics" "groupedMetrics" = none) →
      ∃ e, parseCurrentRegressionModelQuality d = Except.error e) ∧
    (∀ (d : Dict) (k : String) (v : Value), k ∉ binaryQualityKeys →
      parseBinaryClassificationModelQuality (d ++ [(k, v)]) =
        parseBinaryClassificationModelQuality d) ∧
    (∀ (d : Dict) (k : String) (v : Value), k ∉ currentQualityKeys →
      parseCurrentBinaryClassificationModelQuality (d ++ [(k, v)]) =
        parseCurrentBinaryClassificationModelQuality d) ∧
    (∀ (d : Dict) (k : String) (v : Value), k ∉ multiQualityKeys →
      parseMultiClassificationModelQuality (d ++ [(k, v)]) =
        parseMultiClassificationModelQuality d) ∧
    (∀ (d : Dict) (k : String) (v : Value), k ∉ regressionQualityKeys →
      parseRegressionModelQuality (d ++ [(k, v)]) = parseRegressionModelQuality d) ∧
    (∀ (d : Dict) (k : String) (v : Value), k ∉ currentQualityKeys →
      parseCurrentRegressionModelQuality (d ++ [(k, v)]) =
        parseCurrentRegressionModelQuality d) :=
  ⟨fun _ h => parseBinaryQuality_missing h,
   fun _ h => parseCurrentBinaryQuality_missing h,
   fun _ h => parseMultiQuality_missing h,
   fun _ h => parseCurrentRegressionQuality_missing h,
   fun d _ v hk => parseBinaryQuality_append v d hk,
   fun d _ v hk => parseCurrentBinaryQuality_append v d hk,
   fun d _ v hk => parseMultiQuality_append v d hk,
   fun d _ v hk => parseRegressionQuality_append v d hk,
   fun d _ v hk => parseCurrentRegressionQuality_append v d hk⟩

/-- Witness for C8 (amended) at concrete inputs: the empty mapping misses
every required field of the four shapes that have one, and an extra
`"not_in_schema"` key leaves each construction unchanged. -/
theorem quality_construction_missing_and_extra_witness :
    (∃ e, parseBinaryClassificationModelQuality [] = Except.error e) ∧
    (∃ e, parseCurrentBinaryClassificationModelQuality [] = Except.error e) ∧
    (∃ e, parseMultiClassificationModelQuality [] = Except.error e) ∧
    (∃ e, parseCurrentRegressionModelQuality [] = Except.error e) ∧
    parseBinaryClassificationModelQuality
        ([("true_positive_count", Value.int 10), ("false_positive_count", Value.int 2),
          ("true_negative_count", Value.int 20), ("false_negative_count", Value.int 3)] ++
         [("not_in_schema", Value.int 99)]) =
      parseBinaryClassificationModelQuality
        [("true_positive_count", Value.int 10), ("false_positive_count", Value.int 2),
         ("true_negative_count", Value.int 20), ("false_negative_count", Value.int 3)] ∧
    parseCurrentBinaryClassificationModelQuality ([] ++ [("not_in_schema", Value.int 99)]) =
      parseCurrentBinaryClassificationModelQuality [] ∧
    parseMultiClassificationModelQuality ([] ++ [("not_in_schema", Value.int 99)]) =
      parseMultiClassificationModelQuality [] ∧
    parseRegressionModelQuality ([] ++ [("not_in_schema", Value.int 99)]) =
      parseRegressionModelQuality [] ∧
    parseCurrentRegressionModelQuality ([] ++ [("not_in_schema", Value.int 99)]) =
      parseCurrentRegressionModelQuality [] :=
  ⟨quality_construction_missing_and_extra.1 [] (Or.inl rfl),
   quality_construction_missing_and_extra.2.1 [] (Or.inl rfl),
   quality_construction_missing_and_extra.2.2.1 [] (Or.inl rfl),
   quality_construction_missing_and_extra.2.2.2.1 [] (Or.inl rfl),
   quality_construction_missing_and_extra.2.2.2.2.1 _ _ _ (by decide),
   quality_construction_missing_and_extra.2.2.2.2.2.1 _ _ _ (by decide),
   quality_construction_missing_and_extra.2.2.2.2.2.2.1 _ _ _ (by decide),
   quality_construction_missing_and_extra.2.2.2.2.2.2.2.1 _ _ _ (by decide),
   quality_construction_missing_and_extra.2.2.2.2.2.2.2.2 _ _ _ (by decide)⟩

/-- C8 counterexample: a mapping with all four required binary counts plus
an extra key not in the schema is admitted by the (BINARY, REFERENCE)
construction instead of failing fast, refuting the claim's extra-field
half. -/
theorem binary_quality_extra_field_admitted :
    create_model_quality .BINARY .REFERENCE
        [("true_positive_count", Value.int 10), ("false_positive_count", Value.int 2),
         ("true_negative_count", Value.int 20), ("false_negative_count", Value.int 3),
         ("not_in_schema", Value.int 99)] =
      .ok (.binary { true_positive_count := 10, false_positive_count := 2,
                     true_negative_count := 20, false_negative_count := 3 }) := rfl

set_option maxRecDepth 8000 in
/-- C6: for every dataset the descriptive statistics satisfy
`missing_cells_perc = 100*missing_cells/(n_variables*n_observations)` and
`duplicate_rows_perc = 100*duplicate_rows/n_observations`; in particular the
100-row, 14-column scenario-A dataset with 7 missing cells and 2 duplicate
rows yields `missing_cells_perc = 0.5` and `duplicate_rows_perc = 2.0`. -/
theorem statistics_percentages :
    (∀ (α : Type) (inst : DecidableEq α) (ds : Dataset α),
      (calculate_statistics ds).missing_cells_perc =
        100 * ((calculate_statistics ds).missing_cells : Rat) /
          (((calculate_statistics ds).n_variables : Rat) *
            ((calculate_statistics ds).n_observations : Rat)) ∧
      (calculate_statistics ds).duplicate_rows_perc =
        100 * ((calculate_statistics ds).duplicate_rows : Rat) /
          ((calculate_statistics ds).n_observations : Rat)) ∧
    (calculate_statistics scenarioADataset).n_variables = 14 ∧
    (calculate_statistics scenarioADataset).n_observations = 100 ∧
    (calculate_statistics scenarioADataset).missing_cells = 7 ∧
    (calculate_statistics scenarioADataset).duplicate_rows = 2 ∧
    (calculate_statistics scenarioADataset).missing_cells_perc = 0.5 ∧
    (calculate_statistics scenarioADataset).duplicate_rows_perc = 2.0 := by
  have hnv : scenarioADataset.columns.length = 14 := by decide
  have hno : scenarioADataset.rows.length = 100 := by decide
  have hmc : (scenarioADataset.rows.map (fun r => r.countP (fun c => c.isNone))).sum = 7 := by
    decide
  have hded : scenarioADataset.rows.dedup.length = 98 := by decide
  refine ⟨fun α inst ds => ⟨rfl, rfl⟩, ?_, ?_, ?_, ?_, ?_, ?_⟩
  · exact hnv
  · exact hno
  · exact hmc
  · simp only [calculate_statistics, hno, hded]
  · simp only [calculate_statistics, hnv, hno, hmc]
    norm_num
  · simp only [calculate_statistics, hno, hded]
    norm_num

/-- C3 counterexample: in the recorded drift report of the FE fixture the
categorical column `Sex` — whose reference and current distributions are
identical (spec Scenario D) — carries CHI2 statistic value 0 yet
`has_drift = true`, so the fixture refutes "statistic value of 0 (identical
distributions) implies has_drift = False". -/
theorem drift_self_comparison_claim_false :
    drift_regression_chi_expected.find? (fun r => r.feature_name == "Sex") =
      some { feature_name := "Sex",
             drift_calc := { type := .CHI2, value := 0, has_drift := true } } ∧
    ¬ (∀ r ∈ drift_regression_chi_expected,
        r.drift_calc.value = 0 → r.drift_calc.has_drift = false) := by
  refine ⟨rfl, fun h => ?_⟩
  have hs := h { feature_name := "Sex",
                 drift_calc := { type := .CHI2, value := 0, has_drift := true } }
    (List.mem_cons_self _ _) rfl
  simp at hs

/-- C3 (amended): comparing identical reference and current distributions
yields a statistic value of 0, but the drift verdict is not necessarily
False: in the recorded FE fixture the identically-distributed `Sex` column
reports CHI2 value 0.0 with has_drift = True, while `pred_id` reports CHI2
value 0.2397280792131291 with has_drift = False, per the fixture's CHI2
convention. -/
theorem drift_fixture_chi2_convention :
    (drift_regression_chi_expected.find? (fun r => r.feature_name == "Sex")).map
        (fun r => (r.drift_calc.value, r.drift_calc.has_drift)) = some (0, true) ∧
    drift_regression_chi_expected.find? (fun r => r.feature_name == "pred_id") =
      some { feature_name := "pred_id",
             drift_calc := { type := .CHI2, value := 0.2397280792131291,
                             has_drift := false } } :=
  ⟨rfl, rfl⟩

/-- C4: in the recorded CURRENT model-quality report of the bike fixture,
the global r2 equals 0.8211 within 1e-3, and the grouped mae series has
exactly four points, sorted strictly ascending by bucket-start timestamp,
whose values match 35.68, 89.14, 91.54 and 63.35 within 1e-2 — one point
per non-empty month bucket. -/
theorem bike_model_quality_scenario :
    |bike_model_quality_expected.global_metrics.r2 - 0.8211| ≤ 1 / 1000 ∧
    bike_model_quality_expected.grouped_metrics.mae.length = 4 ∧
    List.Chain' (fun a b => tsLt a.timestamp b.timestamp)
      bike_model_quality_expected.grouped_metrics.mae ∧
    List.Forall₂ (fun pt target => |pt.value - target| ≤ (1 / 100 : Rat))
      bike_model_quality_expected.grouped_metrics.mae [35.68, 89.14, 91.54, 63.35] := by
  refine ⟨?_, rfl, ?_, ?_⟩
  · show |(0.8210737408739541 : Rat) - 0.8211| ≤ 1 / 1000
    rw [abs_le]
    constructor <;> norm_num
  · show List.Chain' _ [_, _, _, _]
    refine List.Chain'.cons ?_ (List.Chain'.cons ?_ (List.Chain'.cons ?_ ?_)) <;>
      first
        | exact List.chain'_singleton _
        | decide
  · refine List.Forall₂.cons ?_ (List.Forall₂.cons ?_ (List.Forall₂.cons ?_
      (List.Forall₂.cons ?_ List.Forall₂.nil))) <;> (rw [abs_le]; constructor <;> norm_num)

/-- C5: for every regression computation — the global bundle over any rows
and every per-time-bucket grouped bundle — the reported rmse equals the
square root of the reported mse exactly. -/
theorem regression_rmse_eq_sqrt_mse (p : Nat) :
    (∀ rows : List (Real × Real),
      (calculate_regression_metrics p rows).rmse =
        Real.sqrt (calculate_regression_metrics p rows).mse) ∧
    (∀ (bucketOf : Nat → Nat) (trows : List (Nat × Real × Real))
        (b : Nat × RegressionMetrics),
      b ∈ grouped_regression_metrics p bucketOf trows →
      b.2.rmse = Real.sqrt b.2.mse) := by
  constructor
  · intro rows
    rfl
  · intro bucketOf trows b hb
    simp only [grouped_regression_metrics, List.mem_map] at hb
    obtain ⟨k, hk, rfl⟩ := hb
    rfl

/-- Witness for C5 at a concrete grouped computation: one row with timestamp
key 0, target 1 and prediction 0 produces a single bucket whose bundle
satisfies the rmse-mse relation. -/
theorem regression_rmse_eq_sqrt_mse_witness :
    ((0, calculate_regression_metrics 0 [((1 : Real), (0 : Real))]) ∈
      grouped_regression_metrics 0 (fun k => k) [(0, (1 : Real), (0 : Real))]) ∧
    (calculate_regression_metrics 0 [((1 : Real), (0 : Real))]).rmse =
      Real.sqrt (calculate_regression_metrics 0 [((1 : Real), (0 : Real))]).mse := by
  have hg : grouped_regression_metrics 0 (fun k => k) [(0, (1 : Real), (0 : Real))] =
      [(0, calculate_regression_metrics 0 [((1 : Real), (0 : Real))])] := by
    simp [grouped_regression_metrics, List.insertionSort]
  have hmem : (0, calculate_regression_metrics 0 [((1 : Real), (0 : Real))]) ∈
      grouped_regression_metrics 0 (fun k => k) [(0, (1 : Real), (0 : Real))] := by
    rw [hg]
    exact List.mem_singleton.mpr rfl
  exact ⟨hmem,
    (regression_rmse_eq_sqrt_mse 0).2 (fun k => k) [(0, (1 : Real), (0 : Real))] _ hmem⟩

/-- Folding min over a list can only shrink the accumulator. -/
theorem foldl_min_le_init (l : List Rat) (b : Rat) : l.foldl min b ≤ b := by
  induction l generalizing b with
  | nil => exact le_refl b
  | cons a t ih => exact le_trans (ih (min b a)) (min_le_left b a)

theorem foldl_min_le_mem {v : Rat} {l : List Rat} (hv : v ∈ l) (b : Rat) :
    l.foldl min b ≤ v := by
  induction l generalizing b with
  | nil => cases hv
  | cons a t ih =>
    rcases List.mem_cons.mp hv with rfl | hv2
    · exact le_trans (foldl_min_le_init t (min b v)) (min_le_right b v)
    · exact ih hv2 (min b a)

/-- The reference minimum bounds every reference value from below. -/
theorem listMin_le {v : Rat} {l : List Rat} (hv : v ∈ l) : listMin l ≤ v := by
  cases l with
  | nil => cases hv
  | cons x xs =>
    rcases List.mem_cons.mp hv with rfl | hv2
    · exact foldl_min_le_init xs v
    · exact foldl_min_le_mem hv2 x

theorem le_foldl_max_init (l : List Rat) (b : Rat) : b ≤ l.foldl max b := by
  induction l generalizing b with
  | nil => exact le_refl b
  | cons a t ih => exact le_trans (le_max_left b a) (ih (max b a))

theorem le_foldl_max_mem {v : Rat} {l : List Rat} (hv : v ∈ l) (b : Rat) :
    v ≤ l.foldl max b := by
  induction l generalizing b with
  | nil => cases hv
  | cons a t ih =>
    rcases List.mem_cons.mp hv with rfl | hv2
    · exact le_trans (le_max_right b v) (le_foldl_max_init t (max b v))
    · exact ih hv2 (max b a)

/-- The reference maximum bounds every reference value from above. -/
theorem le_listMax {v : Rat} {l : List Rat} (hv : v ∈ l) : v ≤ listMax l := by
  cases l with
  | nil => cases hv
  | cons x xs =>
    rcases List.mem_cons.mp hv with rfl | hv2
    · exact le_foldl_max_init xs v
    · exact le_foldl_max_mem hv2 x

theorem listMin_le_listMax {l : List Rat} (hl : l ≠ []) : listMin l ≤ listMax l := by
  obtain ⟨x, xs, rfl⟩ := List.exists_cons_of_ne_nil hl
  exact le_trans (listMin_le (List.mem_cons_self x xs))
    (le_listMax (List.mem_cons_self x xs))

theorem foldl_min_replicate (n : Nat) (a b : Rat) (h : b ≤ a) :
    (List.replicate n a).foldl min b = b := by
  induction n with
  | zero => rfl
  | succ m ih => rw [List.replicate_succ, List.foldl_cons, min_eq_left h, ih]

theorem foldl_max_replicate (n : Nat) (a b : Rat) (h : a ≤ b) :
    (List.replicate n a).foldl max b = b := by
  induction n with
  | zero => rfl
  | succ m ih => rw [List.replicate_succ, List.foldl_cons, max_eq_left h, ih]

theorem listMin_cons (x : Rat) (xs : List Rat) : listMin (x :: xs) = xs.foldl min x := rfl

theorem listMax_cons (x : Rat) (xs : List Rat) : listMax (x :: xs) = xs.foldl max x := rfl

/-- The first bucket edge is the span minimum. -/
theorem edge_zero (lo hi : Rat) (n : Nat) : edge lo hi n 0 = lo := by
  simp [edge]

/-- The last bucket edge is the span maximum. -/
theorem edge_last (lo hi : Rat) {n : Nat} (hn : 0 < n) : edge lo hi n n = hi := by
  have hn' : (n : Rat) ≠ 0 := Nat.cast_ne_zero.mpr hn.ne'
  unfold edge
  field_simp

/-- Bucket edges are monotone in the index. -/
theorem edge_le_edge {lo hi : Rat} {n : Nat} (h : lo ≤ hi) {i j : Nat} (hij : i ≤ j) :
    edge lo hi n i ≤ edge lo hi n j := by
  unfold edge
  apply add_le_add_left
  rw [mul_div_assoc, mul_div_assoc]
  have hw : (0 : Rat) ≤ (hi - lo) / (n : Rat) :=
    div_nonneg (by linarith) (Nat.cast_nonneg n)
  exact mul_le_mul_of_nonneg_right (Nat.cast_le.mpr hij) hw

/-- Consecutive bucket edges are strictly increasing on a non-degenerate
span. -/
theorem edge_lt_succ {lo hi : Rat} {n : Nat} (hn : 0 < n) (h : lo < hi) (i : Nat) :
    edge lo hi n i < edge lo hi n (i + 1) := by
  unfold edge
  apply add_lt_add_left
  rw [mul_div_assoc, mul_div_assoc]
  have hw : (0 : Rat) < (hi - lo) / (n : Rat) :=
    div_pos (by linarith) (by exact_mod_cast hn)
  have hc : (i : Rat) < ((i + 1 : Nat) : Rat) := by exact_mod_cast Nat.lt_succ_self i
  exact mul_lt_mul_of_pos_right hc hw

/-- Counting a disjoint disjunction splits into two counts. -/
theorem countP_or_disjoint (l : List Rat) (P Q : Rat → Prop) [DecidablePred P]
    [DecidablePred Q] (hdisj : ∀ v, ¬ (P v ∧ Q v)) :
    l.countP (fun v => decide (P v ∨ Q v)) =
      l.countP (fun v => decide (P v)) + l.countP (fun v => decide (Q v)) := by
  induction l with
  | nil => simp
  | cons a t ih =>
    simp only [List.countP_cons, ih]
    by_cases hp : P a
    · have hq : ¬ Q a := fun hq => hdisj a ⟨hp, hq⟩
      simp [hp, hq]
      omega
    · by_cases hq : Q a <;> simp [hp, hq] <;> omega

/-- The first `k` buckets together count exactly the values below edge `k`. -/
theorem bucket_counts_below {lo hi : Rat} {n : Nat} (hlo : lo < hi) (l : List Rat) :
    ∀ k, k < n →
      ((List.range k).map
        (fun i => l.countP (fun v => decide (inBucket lo hi n i v)))).sum =
        l.countP (fun v => decide (lo ≤ v ∧ v < edge lo hi n k)) := by
  intro k
  induction k with
  | zero =>
    intro _
    simp only [List.range_zero, List.map_nil, List.sum_nil]
    symm
    rw [List.countP_eq_zero]
    intro a _
    simp only [decide_eq_true_eq, edge_zero, not_and, not_lt]
    intro h1
    exact h1
  | succ k ih =>
    intro hk1
    have hkn : k < n := Nat.lt_of_succ_lt hk1
    rw [List.range_succ, List.map_append, List.sum_append, ih hkn]
    simp only [List.map_cons, List.map_nil, List.sum_cons, List.sum_nil, add_zero]
    have hdisj : ∀ v, ¬ ((lo ≤ v ∧ v < edge lo hi n k) ∧ inBucket lo hi n k v) := by
      rintro v ⟨⟨_, h2⟩, h3, _⟩
      exact absurd h3 (not_le.mpr h2)
    rw [← countP_or_disjoint l _ _ hdisj]
    apply List.countP_congr
    intro a _
    simp only [decide_eq_true_eq, inBucket]
    constructor
    · rintro (⟨h1, h2⟩ | ⟨h3, h4⟩)
      · exact ⟨h1, lt_of_lt_of_le h2 (edge_le_edge (le_of_lt hlo) (Nat.le_succ k))⟩
      · refine ⟨le_trans ?_ h3, ?_⟩
        · calc lo = edge lo hi n 0 := (edge_zero lo hi n).symm
            _ ≤ edge lo hi n k := edge_le_edge (le_of_lt hlo) (Nat.zero_le k)
        · rcases h4 with h4 | ⟨hkeq, _⟩
          · exact h4
          · exact absurd hkeq (Nat.ne_of_lt hk1)
    · rintro ⟨h1, h2⟩
      by_cases hlt : a < edge lo hi n k
      · exact Or.inl ⟨h1, hlt⟩
      · exact Or.inr ⟨le_of_not_lt hlt, Or.inl h2⟩

/-- The bucket counts of values inside the span sum to the number of
values: the half-open buckets with a closed last bucket partition the
span. -/
theorem bucket_counts_total {lo hi : Rat} {n : Nat} (hn : 0 < n) (hlo : lo < hi)
    (l : List Rat) (hmem : ∀ v ∈ l, lo ≤ v ∧ v ≤ hi) :
    ((List.range n).map
      (fun i => l.countP (fun v => decide (inBucket lo hi n i v)))).sum = l.length := by
  obtain ⟨m, rfl⟩ : ∃ m, n = m + 1 := ⟨n - 1, (Nat.succ_pred_eq_of_pos hn).symm⟩
  rw [List.range_succ, List.map_append, List.sum_append,
    bucket_counts_below hlo l m (Nat.lt_succ_self m)]
  simp only [List.map_cons, List.map_nil, List.sum_cons, List.sum_nil, add_zero]
  have hdisj : ∀ v,
      ¬ ((lo ≤ v ∧ v < edge lo hi (m + 1) m) ∧ inBucket lo hi (m + 1) m v) := by
    rintro v ⟨⟨_, h2⟩, h3, _⟩
    exact absurd h3 (not_le.mpr h2)
  rw [← countP_or_disjoint l _ _ hdisj]
  rw [List.countP_eq_length]
  intro a ha
  rcases hmem a ha with ⟨h1, h2⟩
  simp only [decide_eq_true_eq, inBucket]
  by_cases hlt : a < edge lo hi (m + 1) m
  · exact Or.inl ⟨h1, hlt⟩
  · refine Or.inr ⟨le_of_not_lt hlt, Or.inr ⟨by trivial, ?_⟩⟩
    rw [edge_last lo hi hn]
    exact h2

/-- The histogram span is non-degenerate: the (possibly epsilon-widened)
upper edge strictly exceeds the lower edge. -/
theorem histogram_span_lt {refs : List Rat} (hne : refs ≠ []) :
    listMin refs <
      (if listMax refs = listMin refs then listMin refs + histEpsilon
       else listMax refs) := by
  split
  · have : (0 : Rat) < histEpsilon := by norm_num [histEpsilon]
    linarith
  · next hne2 =>
    exact lt_of_le_of_ne (listMin_le_listMax hne) (fun he => hne2 he.symm)

/-- Every reference value lies inside the (possibly widened) span. -/
theorem histogram_span_mem {refs : List Rat} {v : Rat} (hv : v ∈ refs) :
    listMin refs ≤ v ∧
      v ≤ (if listMax refs = listMin refs then listMin refs + histEpsilon
           else listMax refs) := by
  refine ⟨listMin_le hv, ?_⟩
  have h1 : v ≤ listMax refs := le_listMax hv
  split
  · next heq =>
    have heps : (0 : Rat) < histEpsilon := by norm_num [histEpsilon]
    rw [heq] at h1
    linarith
  · exact h1

/-- The scenario-B reference column holds 365 zeroes and 366 ones after
dropping (non-existent) missing values. -/
theorem scenarioB_filterMap_ref : List.filterMap id scenarioBReference =
    List.replicate 365 (0 : Rat) ++ List.replicate 366 1 := by
  unfold scenarioBReference
  rw [List.filterMap_append, List.filterMap_replicate, List.filterMap_replicate]
  rfl

theorem scenarioB_filterMap_cur :
    List.filterMap id scenarioBCurrent = List.replicate 100 (0 : Rat) := by
  unfold scenarioBCurrent
  rw [List.filterMap_replicate]
  rfl

theorem scenarioB_listMin :
    listMin (List.replicate 365 (0 : Rat) ++ List.replicate 366 1) = 0 := by
  rw [show List.replicate 365 (0 : Rat) = 0 :: List.replicate 364 0 from rfl,
    List.cons_append]
  rw [listMin_cons, List.foldl_append, foldl_min_replicate 364 0 0 (le_refl (0 : Rat)),
    foldl_min_replicate 366 1 0 (by norm_num)]

theorem scenarioB_listMax :
    listMax (List.replicate 365 (0 : Rat) ++ List.replicate 366 1) = 1 := by
  rw [show List.replicate 365 (0 : Rat) = 0 :: List.replicate 364 0 from rfl,
    List.cons_append]
  rw [listMax_cons, List.foldl_append, foldl_max_replicate 364 0 0 (le_refl (0 : Rat)),
    show List.replicate 366 (1 : Rat) = 1 :: List.replicate 365 1 from rfl,
    List.foldl_cons, max_eq_right (by norm_num : (0 : Rat) ≤ 1),
    foldl_max_replicate 365 1 1 (le_refl (1 : Rat))]

/-- The scenario-B histogram has eleven edges, ten buckets of width 1/10
spanning 0..1. -/
theorem scenarioB_buckets : (buildHistogram scenarioBReference scenarioBCurrent).buckets =
    [0, 1/10, 2/10, 3/10, 4/10, 5/10, 6/10, 7/10, 8/10, 9/10, 1] := by
  simp only [buildHistogram]
  rw [scenarioB_filterMap_ref, scenarioB_listMin, scenarioB_listMax,
    if_neg (by norm_num : ¬(1 : Rat) = 0)]
  simp only [nBuckets]
  rw [show List.range 11 = [0, 1, 2, 3, 4, 5, 6, 7, 8, 9, 10] from by decide]
  simp only [List.map_cons, List.map_nil]
  norm_num [edge]

/-- The scenario-B reference counts: all zeroes land in the first bucket and
all ones in the closed last bucket. -/
theorem scenarioB_reference_values :
    (buildHistogram scenarioBReference scenarioBCurrent).reference_values =
      [365, 0, 0, 0, 0, 0, 0, 0, 0, 366] := by
  simp only [buildHistogram]
  rw [scenarioB_filterMap_ref, scenarioB_listMin, scenarioB_listMax,
    if_neg (by norm_num : ¬(1 : Rat) = 0)]
  simp only [nBuckets]
  rw [show List.range 10 = [0, 1, 2, 3, 4, 5, 6, 7, 8, 9] from by decide]
  simp only [List.map_cons, List.map_nil, List.countP_append, List.countP_replicate]
  norm_num [inBucket, edge]

/-- The scenario-B current counts: the clipped current zeroes land in the
first bucket. -/
theorem scenarioB_current_values :
    (buildHistogram scenarioBReference scenarioBCurrent).current_values =
      [100, 0, 0, 0, 0, 0, 0, 0, 0, 0] := by
  simp only [buildHistogram]
  rw [scenarioB_filterMap_ref, scenarioB_filterMap_cur, scenarioB_listMin,
    scenarioB_listMax, if_neg (by norm_num : ¬(1 : Rat) = 0)]
  simp only [nBuckets]
  rw [show List.range 10 = [0, 1, 2, 3, 4, 5, 6, 7, 8, 9] from by decide]
  simp only [List.map_replicate, List.map_cons, List.map_nil, List.countP_replicate]
  norm_num [inBucket, edge, min_def, max_def]

/-- C7: for every numeric column histogram over a non-empty reference
column, the edge list has length nBuckets+1 with strictly increasing edges
and the reference counts sum to the non-missing reference row count; on the
scenario-B fixture the ten buckets have width 1/10 over 0..1 and the
reference and current counts sum to 731 and 100. -/
theorem histogram_invariants_and_scenario :
    (∀ refsOpt cursOpt : List (Option Rat), refsOpt.filterMap id ≠ [] →
      (buildHistogram refsOpt cursOpt).buckets.length = nBuckets + 1 ∧
      List.Chain' (· < ·) (buildHistogram refsOpt cursOpt).buckets ∧
      (buildHistogram refsOpt cursOpt).reference_values.sum =
        (refsOpt.filterMap id).length) ∧
    (buildHistogram scenarioBReference scenarioBCurrent).buckets =
      [0, 1/10, 2/10, 3/10, 4/10, 5/10, 6/10, 7/10, 8/10, 9/10, 1] ∧
    (buildHistogram scenarioBReference scenarioBCurrent).reference_values =
      [365, 0, 0, 0, 0, 0, 0, 0, 0, 366] ∧
    (buildHistogram scenarioBReference scenarioBCurrent).current_values =
      [100, 0, 0, 0, 0, 0, 0, 0, 0, 0] ∧
    (buildHistogram scenarioBReference scenarioBCurrent).reference_values.sum = 731 ∧
    (buildHistogram scenarioBReference scenarioBCurrent).current_values.sum = 100 := by
  refine ⟨?_, scenarioB_buckets, scenarioB_reference_values, scenarioB_current_values,
    ?_, ?_⟩
  · intro refsOpt cursOpt hne
    refine ⟨by simp [buildHistogram], ?_, ?_⟩
    · simp only [buildHistogram]
      rw [List.chain'_map, List.chain'_range_succ]
      intro m hm
      exact edge_lt_succ (by norm_num [nBuckets]) (histogram_span_lt hne) m
    · simp only [buildHistogram]
      exact bucket_counts_total (by norm_num [nBuckets]) (histogram_span_lt hne)
        (refsOpt.filterMap id) (fun v hv => histogram_span_mem hv)
  · rw [scenarioB_reference_values]
    decide
  · rw [scenarioB_current_values]
    decide

/-- Witness for C7 at the concrete scenario-B column: its filtered reference
list is non-empty and the histogram invariants hold for it. -/
theorem histogram_invariants_witness :
    (scenarioBReference.filterMap id ≠ []) ∧
    ((buildHistogram scenarioBReference scenarioBCurrent).buckets.length =
        nBuckets + 1 ∧
     List.Chain' (· < ·) (buildHistogram scenarioBReference scenarioBCurrent).buckets ∧
     (buildHistogram scenarioBReference scenarioBCurrent).reference_values.sum =
       (scenarioBReference.filterMap id).length) := by
  have hne : scenarioBReference.filterMap id ≠ [] := by
    rw [scenarioB_filterMap_ref]
    intro h
    have h2 := congrArg List.length h
    rw [List.length_append, List.length_replicate, List.length_replicate] at h2
    exact absurd h2 (by decide)
  exact ⟨hne,
    histogram_invariants_and_scenario.1 scenarioBReference scenarioBCurrent hne⟩
